import Mathlib

/-!
Verification of the authenticated-session and request-dispatch layer of a
Valorant API client.  The Python sources embedded here are
`src/valorant/valorant.py` and `src/valostore/constants.py`.  Python dict
literals become association lists, f-strings become string concatenation,
uncaught Python exceptions become an explicit exception result, and the
HTTP layer is abstracted as a function from request index to response.
-/

namespace ValorantPy

/-- Modelled from the spec: the `Region` class of the missing
`valorant/constants.py`.  The spec describes the region table as mapping a
region code to a routing triple (region, shard, chat/xmpp identifiers);
`valorant.py` itself reads only the `region` and `shard` attributes. -/
structure Region where
  region : String
  shard : String
  xmpp : String
deriving Repr, DecidableEq

/-- `self.pd_server = f"https://pd.{self.region.region}.a.pvp.net"`
(src/valorant/valorant.py, line 32). -/
def pd_server (r : Region) : String :=
  "https://pd." ++ r.region ++ ".a.pvp.net"

/-- `self.glz_server = f"https://glz-{self.region.region}-1.{self.region.shard}.a.pvp.net"`
(src/valorant/valorant.py, line 33). -/
def glz_server (r : Region) : String :=
  "https://glz-" ++ r.region ++ "-1." ++ r.shard ++ ".a.pvp.net"

/-- The pair of base server URLs derived from a region value. -/
structure RoutedEndpoints where
  accountServer : String
  liveServer : String
deriving Repr, DecidableEq

/-- The endpoint-router URL construction of `Valorant.__init__`
(lines 32 to 33): both base URLs as a pure function of the region value. -/
def routes (r : Region) : RoutedEndpoints :=
  { accountServer := pd_server r, liveServer := glz_server r }

/-- The base64 alphabet used by `base64.b64encode`. -/
def base64Alphabet : List Char :=
  "ABCDEFGHIJKLMNOPQRSTUVWXYZabcdefghijklmnopqrstuvwxyz0123456789+/".toList

/-- Character of the base64 alphabet at a 6-bit index. -/
def base64Char (n : Nat) : Char := base64Alphabet.getD n 'A'

/-- Standard base64 encoding of a byte list, with `=` padding, as performed
by `base64.b64encode`. -/
def b64encode : List Nat → String
  | [] => ""
  | [a] =>
      String.mk [base64Char (a / 4), base64Char (a % 4 * 16), '=', '=']
  | [a, b] =>
      String.mk [base64Char (a / 4), base64Char (a % 4 * 16 + b / 16),
        base64Char (b % 16 * 4), '=']
  | a :: b :: c :: rest =>
      String.mk [base64Char (a / 4), base64Char (a % 4 * 16 + b / 16),
        base64Char (b % 16 * 4 + c / 64), base64Char (c % 64)] ++ b64encode rest

/-- The per-client state that the endpoint methods of `valorant.py` read
through `self`: the three bearer tokens held by the `Auth` object, the
resolved region, the client version, and the user id (`user_info["sub"]`). -/
structure ClientState where
  access_token : String
  entitlement_token : String
  id_token : String
  client_version : String
  region : Region
  sub : String
deriving Repr, DecidableEq

/-- The exact output of `json.dumps({...})` inside `Valorant.client_platform`
(lines 38 to 43): keys in insertion order, with ": " and ", " separators. -/
def clientPlatformJson : String :=
  "\x7b\"platformType\": \"PC\", \"platformOS\": \"Windows\", \"platformOSVersion\": \"10.0.19042.1.256.64bit\", \"platformChipset\": \"Unknown\"\x7d"

/-- `Valorant.client_platform` (lines 36 to 43): base64 of the UTF-8 bytes of
the fixed JSON blob.  The property body reads no instance state, so it is a
constant function of the client state; the Python `bytes` value is modeled as
its ASCII string. -/
def client_platform (_st : ClientState) : String :=
  b64encode (clientPlatformJson.toList.map Char.toNat)

/-- Python values as produced by `response.json()`. -/
inductive PyVal where
  | str : String → PyVal
  | num : Int → PyVal
  | dict : List (String × PyVal) → PyVal
  | list : List PyVal → PyVal
  | pynone : PyVal

/-- Uncaught Python exceptions, together with the error values the spec
declares (`AuthError`, `ApiError`); the declared ones are listed so that the
spec claims are statable, the code itself never produces them. -/
inductive PyExn where
  | keyError : String → PyExn
  | jsonDecodeError : PyExn
  | typeError : PyExn
  | authErrorUnknownRegion : PyExn
  | apiErrorMalformedResponse : PyExn
  | apiErrorUnauthorized : PyExn
deriving Repr, DecidableEq

/-- Result of running a piece of Python code: a value, or an uncaught
exception propagating out. -/
inductive PyResult (α : Type) where
  | ok : α → PyResult α
  | exn : PyExn → PyResult α
deriving Repr, DecidableEq

/-- An HTTP response, with the JSON decode of its body abstracted as an
oracle field: `jsonBody = some v` when the body decodes to `v`, `none` when
the body is not valid JSON. -/
structure Response where
  status : Nat
  jsonBody : Option PyVal

/-- `response.json()` of the requests library: returns the decoded body, or
raises `json.JSONDecodeError`, regardless of the HTTP status code. -/
def Response.json (r : Response) : PyResult PyVal :=
  match r.jsonBody with
  | some v => .ok v
  | Option.none => .exn .jsonDecodeError

/-- Python subscript `v[k]` on a decoded JSON value with a string key: a
dict lookup that raises `KeyError` on a missing key, and `TypeError` when
the value is not a dict. -/
def pySubscript : PyVal → String → PyResult PyVal
  | PyVal.dict entries, k =>
      match List.lookup k entries with
      | some v => .ok v
      | Option.none => .exn (.keyError k)
  | _, _ => .exn .typeError

/-- One HTTP request as issued by the client. -/
structure HttpCall where
  method : String
  url : String
  headers : List (String × String)

/-- Observable effects of one endpoint method call. -/
inductive Effect where
  | http : HttpCall → Effect
  | refresh : Effect

/-- Number of HTTP requests in an effect trace. -/
def requestCount (effs : List Effect) : Nat :=
  (effs.filter fun e => match e with | Effect.http _ => true | _ => false).length

/-- Number of token refreshes in an effect trace. -/
def refreshCount (effs : List Effect) : Nat :=
  (effs.filter fun e => match e with | Effect.refresh => true | _ => false).length

/-- Trace of one endpoint method call: the effects it performs, in order,
and its outcome. -/
structure CallTrace where
  effects : List Effect
  result : PyResult PyVal

/-- Python `str()` of a `bytes` value holding ASCII text, as produced by the
f-string `f"{self.client_platform}"`: `b` followed by the text between
single-quote characters (code 39). -/
def pyBytesRepr (s : String) : String :=
  "b" ++ String.mk [Char.ofNat 39] ++ s ++ String.mk [Char.ofNat 39]

namespace URLS

/-- `URLS.USERINFO_URL` (src/valostore/constants.py, line 6). -/
def USERINFO_URL : String := "https://auth.riotgames.com/userinfo"

end URLS

namespace API

/-- `API.CONTENT` (src/valostore/constants.py, line 10). -/
def CONTENT : String := "/content-service/v3/content"

/-- `API.ACCOUNT_XP` (src/valostore/constants.py, line 11). -/
def ACCOUNT_XP : String := "/account-xp/v1/players/"

/-- `API.MMR` (src/valostore/constants.py, line 12). -/
def MMR : String := "/mmr/v1/players/"

/-- `API.STORE` (src/valostore/constants.py, line 13). -/
def STORE : String := "/store/v2/storefront/"

/-- `API.PRICES` (src/valostore/constants.py, line 14). -/
def PRICES : String := "/store/v1/offers"

/-- `API.WALLET` (src/valostore/constants.py, line 15). -/
def WALLET : String := "/store/v1/wallet/"

/-- `API.OWNED` (src/valostore/constants.py, line 16). -/
def OWNED : String := "/store/v1/entitlements/"

end API

/-- The header dict of `Valorant.get_content` (lines 94 to 99). -/
def contentHeaders (st : ClientState) : List (String × String) :=
  [("X-Riot-ClientPlatform", pyBytesRepr (client_platform st)),
   ("X-Riot-ClientVersion", st.client_version),
   ("X-Riot-Entitlements-JWT", st.entitlement_token),
   ("Authorization", "Bearer " ++ st.access_token)]

/-- The header dict of `Valorant.get_user_info` (lines 59 to 62). -/
def userInfoHeaders (st : ClientState) : List (String × String) :=
  [("Content-Type", "application/json"),
   ("Authorization", "Bearer " ++ st.access_token)]

/-- The GET to the public version-metadata endpoint that every evaluation of
the `client_version` property performs (lines 45 to 54); a `client_version`
read inside a header f-string therefore issues this request before the
endpoint request itself. -/
def versionRequest : HttpCall :=
  { method := "GET", url := "https://valorant-api.com/v1/version", headers := [] }

/-- The dispatch shape shared by every endpoint method body of `valorant.py`
(lines 56 to 365): build the header dict, whose `client_version` property
reads each issue one GET to the version-metadata endpoint, then issue the
single request `session.<verb>(url, headers=...)` and JSON-decode its
response, whatever the status.  No method body contains a refresh call, a
retry, or an except clause. -/
def methodCall (versionReads : Nat) (verb url : String)
    (headers : List (String × String)) (backend : Nat → Response) : CallTrace :=
  { effects := List.replicate versionReads (Effect.http versionRequest)
      ++ [Effect.http { method := verb, url := url, headers := headers }],
    result := (backend 0).json }

/-- The dispatch of `Valorant.set_loadout` (lines 120 to 129), the one
endpoint method that never calls `.json()`: it issues its single request and
returns Python None. -/
def methodCallNoDecode (verb url : String)
    (headers : List (String × String)) : CallTrace :=
  { effects := [Effect.http { method := verb, url := url, headers := headers }],
    result := .ok PyVal.pynone }

/-- `Valorant.get_content` (lines 91 to 100), with the `API.CONTENT` path of
the missing `valorant/constants.py` passed as a parameter and the HTTP layer
abstracted as a function from request index to response: building the header
dict evaluates `client_version` once (line 96), issuing one version-metadata
GET, then the method issues exactly one GET to the pd server and JSON-decodes
the response body, whatever its status; the source body contains no refresh
call and no retry. -/
def get_content (st : ClientState) (contentPath : String)
    (backend : Nat → Response) : CallTrace :=
  methodCall 1 "GET" (pd_server st.region ++ contentPath) (contentHeaders st) backend

/-- `Valorant.get_user_info` (lines 56 to 64): exactly one POST to the fixed
userinfo URL (no version-metadata read in its headers), then `.json()` on
the response, whatever its status. -/
def get_user_info (st : ClientState) (backend : Nat → Response) : CallTrace :=
  methodCall 0 "POST" URLS.USERINFO_URL (userInfoHeaders st) backend

/-- `Valorant.get_region` (lines 78 to 89): one PUT to the geolocation URL,
`.json()` on the response, then `regions[a["affinities"]["live"]]`.  The
contents of the `regions` dict live in the missing `valorant/constants.py`
and are passed as a parameter; a dict subscript that misses raises
`KeyError`. -/
def get_region (regions : List (String × Region)) (resp : Response) :
    PyResult Region :=
  match resp.json with
  | .exn e => .exn e
  | .ok a =>
    match pySubscript a "affinities" with
    | .exn e => .exn e
    | .ok aff =>
      match pySubscript aff "live" with
      | .exn e => .exn e
      | .ok (PyVal.str code) =>
        match List.lookup code regions with
        | some r => .ok r
        | Option.none => .exn (.keyError code)
      | .ok _ => .exn .typeError

/-- A geolocation response of the documented shape
`\x7b "affinities": \x7b "live": code \x7d \x7d`. -/
def geoResponse (code : String) : Response :=
  { status := 200,
    jsonBody := some (PyVal.dict
      [("affinities", PyVal.dict [("live", PyVal.str code)])]) }

/-- Example region value for the code "na1". -/
def exRegionNa1 : Region := { region := "na1", shard := "na1", xmpp := "na1" }

/-- Example region table with the single entry "na1". -/
def exRegions : List (String × Region) := [("na1", exRegionNa1)]

/-- Example client state used by concrete witnesses. -/
def exState : ClientState :=
  { access_token := "acc-token", entitlement_token := "ent-token",
    id_token := "id-token", client_version := "ver-1",
    region := exRegionNa1, sub := "user-sub" }

/-- A backend whose first response is a 401 and whose second is a 200 with a
well-formed JSON body. -/
def backend401then200 : Nat → Response
  | 0 => { status := 401, jsonBody := some (PyVal.dict [("httpStatus", PyVal.num 401)]) }
  | _ => { status := 200, jsonBody := some (PyVal.dict [("ok", PyVal.num 1)]) }

/-- A backend answering 401 on every request, with a well-formed JSON error
body. -/
def backend401always : Nat → Response := fun _ =>
  { status := 401, jsonBody := some (PyVal.dict [("httpStatus", PyVal.num 401)]) }

/-- A 2xx response whose body is not valid JSON. -/
def malformedResponse200 : Response := { status := 200, jsonBody := Option.none }

/-- The two-entry header dict that most routed methods repeat verbatim
(e.g. `get_account_xp`, lines 105 to 108). -/
def stdHeaders (st : ClientState) : List (String × String) :=
  [("X-Riot-Entitlements-JWT", st.entitlement_token),
   ("Authorization", "Bearer " ++ st.access_token)]

/-- The header dict of `Valorant.get_player_mmr` (lines 137 to 142); the raw
`bytes` client-platform value is modeled as its ASCII content. -/
def playerMmrHeaders (st : ClientState) : List (String × String) :=
  [("X-Riot-ClientPlatform", client_platform st),
   ("X-Riot-ClientVersion", st.client_version),
   ("X-Riot-Entitlements-JWT", st.entitlement_token),
   ("Authorization", "Bearer " ++ st.access_token)]

/-- The header dict of `Valorant.get_leaderboard` (lines 170 to 174). -/
def leaderboardHeaders (st : ClientState) : List (String × String) :=
  [("X-Riot-ClientVersion", st.client_version),
   ("X-Riot-Entitlements-JWT", st.entitlement_token),
   ("Authorization", "Bearer " ++ st.access_token)]

/-- The header dict of `Valorant.get_penalties` (lines 180 to 184). -/
def penaltiesHeaders (st : ClientState) : List (String × String) :=
  [("X-Riot-ClientPlatform", client_platform st),
   ("X-Riot-Entitlements-JWT", st.entitlement_token),
   ("Authorization", "Bearer " ++ st.access_token)]

/-- The header dict of `Valorant.get_store` (lines 208 to 214). -/
def storeHeaders (st : ClientState) : List (String × String) :=
  [("Authorization", "Bearer " ++ st.access_token),
   ("X-Riot-Entitlements-JWT", st.entitlement_token),
   ("X-Riot-ClientPlatform", client_platform st),
   ("X-Riot-ClientVersion", st.client_version),
   ("Content-Type", "application/json")]

/-- The header dict of `Valorant.get_contracts` (lines 360 to 364). -/
def contractsHeaders (st : ClientState) : List (String × String) :=
  [("X-Riot-ClientVersion", st.client_version),
   ("X-Riot-Entitlements-JWT", st.entitlement_token),
   ("Authorization", "Bearer " ++ st.access_token)]

/-- Every region-routed endpoint method of `Valorant` (every method whose
request URL starts with `self.pd_server` or `self.glz_server`), paired with
the header dict its source passes to the request.  All 25 such methods are
listed; `get_user_info` and `get_border_level` hit fixed non-routed URLs and
are excluded. -/
def routedMethodHeaders (st : ClientState) : List (String × List (String × String)) :=
  [("get_content", contentHeaders st),
   ("get_account_xp", stdHeaders st),
   ("get_loadout", stdHeaders st),
   ("set_loadout", stdHeaders st),
   ("get_player_mmr", playerMmrHeaders st),
   ("get_match_history", stdHeaders st),
   ("get_match_details", stdHeaders st),
   ("get_leaderboard", leaderboardHeaders st),
   ("get_penalties", penaltiesHeaders st),
   ("get_config", stdHeaders st),
   ("get_prices", stdHeaders st),
   ("get_store", storeHeaders st),
   ("get_wallet", stdHeaders st),
   ("get_items", stdHeaders st),
   ("get_pregame_id", stdHeaders st),
   ("get_pregame_match", stdHeaders st),
   ("get_pregame_loadout", stdHeaders st),
   ("select_agent", stdHeaders st),
   ("lock_agent", stdHeaders st),
   ("quit_pregame", stdHeaders st),
   ("get_current_game_player", stdHeaders st),
   ("get_current_game_match", stdHeaders st),
   ("get_current_game_loadout", stdHeaders st),
   ("get_item_upgrades", stdHeaders st),
   ("get_contracts", contractsHeaders st)]

/-- Python truthiness of an optional string: `None` and the empty string
are falsy. -/
def strOptTruthy : Option String → Bool
  | Option.none => false
  | some s => !(s == "")

/-- An optional string as interpolated by an f-string: `None` prints as
"None". -/
def fstrOptStr : Option String → String
  | Option.none => "None"
  | some s => s

/-- The URL expression of `Valorant.get_leaderboard` (line 169).  The
trailing conditional expression binds below the `+` concatenation, so Python
parses the line as `(full-url + query-suffix) if username else ""` and the
whole URL collapses to the empty string whenever `username` is falsy.  The
`API.LEADERBOARD` path of the missing `valorant/constants.py` is a
parameter. -/
def get_leaderboard_url (st : ClientState) (leaderboardPath : String)
    (season_id : String) (start amount : Int) (username : Option String) : String :=
  if strOptTruthy username then
    pd_server st.region ++ leaderboardPath ++ "/" ++ season_id
      ++ "?startIndex=" ++ toString start ++ "&size=" ++ toString amount
      ++ "&query=" ++ fstrOptStr username
  else ""

/-- The value bound to `pregame_match_id` in `Valorant.select_agent`
(lines 273 to 274): when the argument is `None`, the whole dict returned by
`get_pregame_id` is used, with no `["MatchID"]` subscript.  `pregameResp`
is the decoded body of the `get_pregame_id` response. -/
def select_agent_match_id (pregameResp : PyVal) (arg : Option String) : PyVal :=
  match arg with
  | some s => PyVal.str s
  | Option.none => pregameResp

/-- The same binding in `Valorant.lock_agent` (lines 285 to 286). -/
def lock_agent_match_id (pregameResp : PyVal) (arg : Option String) : PyVal :=
  match arg with
  | some s => PyVal.str s
  | Option.none => pregameResp

/-- The same binding in `Valorant.quit_pregame` (lines 297 to 298). -/
def quit_pregame_match_id (pregameResp : PyVal) (arg : Option String) : PyVal :=
  match arg with
  | some s => PyVal.str s
  | Option.none => pregameResp

/-- The value bound to `pregame_match_id` in `Valorant.get_pregame_match`
(lines 249 to 250): when the argument is `None`, the `"MatchID"` field is
extracted with a subscript (which may raise). -/
def get_pregame_match_match_id (pregameResp : PyVal) (arg : Option String) :
    PyResult PyVal :=
  match arg with
  | some s => .ok (PyVal.str s)
  | Option.none => pySubscript pregameResp "MatchID"

/-- The same binding in `Valorant.get_pregame_loadout` (lines 261 to 262). -/
def get_pregame_loadout_match_id (pregameResp : PyVal) (arg : Option String) :
    PyResult PyVal :=
  match arg with
  | some s => .ok (PyVal.str s)
  | Option.none => pySubscript pregameResp "MatchID"

/-- `xmpp_regions` (src/valostore/constants.py, lines 20 to 45). -/
def xmpp_regions : List (String × String) :=
  [("as2", "as2"), ("asia", "jp1"), ("br1", "br1"), ("eu", "ru1"),
   ("eu3", "eu3"), ("eun1", "eu2"), ("euw1", "eu1"), ("jp1", "jp1"),
   ("kr1", "kr1"), ("la1", "la1"), ("la2", "la2"), ("na1", "na1"),
   ("oc1", "oc1"), ("pbe1", "pb1"), ("ru1", "ru1"), ("sea1", "sa1"),
   ("sea2", "sa2"), ("sea3", "sa3"), ("sea4", "sa4"), ("tr1", "tr1"),
   ("us", "la1"), ("us-br1", "br1"), ("us-la2", "la2"), ("us2", "us2")]

/-- `xmpp_servers` (src/valostore/constants.py, lines 47 to 72). -/
def xmpp_servers : List (String × String) :=
  [("as2", "as2.chat.si.riotgames.com"), ("asia", "jp1.chat.si.riotgames.com"),
   ("br1", "br.chat.si.riotgames.com"), ("eu", "ru1.chat.si.riotgames.com"),
   ("eu3", "eu3.chat.si.riotgames.com"), ("eun1", "eun1.chat.si.riotgames.com"),
   ("euw1", "euw1.chat.si.riotgames.com"), ("jp1", "jp1.chat.si.riotgames.com"),
   ("kr1", "kr1.chat.si.riotgames.com"), ("la1", "la1.chat.si.riotgames.com"),
   ("la2", "la2.chat.si.riotgames.com"), ("na1", "na2.chat.si.riotgames.com"),
   ("oc1", "oc1.chat.si.riotgames.com"), ("pbe1", "pbe1.chat.si.riotgames.com"),
   ("ru1", "ru1.chat.si.riotgames.com"), ("sea1", "sa1.chat.si.riotgames.com"),
   ("sea2", "sa2.chat.si.riotgames.com"), ("sea3", "sa3.chat.si.riotgames.com"),
   ("sea4", "sa4.chat.si.riotgames.com"), ("tr1", "tr1.chat.si.riotgames.com"),
   ("us", "la1.chat.si.riotgames.com"), ("us-br1", "br.chat.si.riotgames.com"),
   ("us-la2", "la2.chat.si.riotgames.com"), ("us2", "us2.chat.si.riotgames.com")]

/-- Every endpoint method of `Valorant`, paired with the number of
`client_version` property reads its header dict performs and the trace of
one call.  Optional player ids are at their defaults, resolved from the
client state (`self.user_info["sub"]`); the pregame and current-game ids
are supplied explicitly through `p` (their None branches first run
`get_pregame_id`, a separate call already listed); `p` also supplies the
path constants of the missing `valorant/constants.py` and the required
string arguments, none of which affect the trace shape.  `get_border_level`
is no dispatch of its own: it only composes `get_match_history`,
`get_match_details` and a public static-data GET. -/
def endpointCalls (st : ClientState) (p : String → String)
    (backend : Nat → Response) : List (String × Nat × CallTrace) :=
  [("get_user_info", 0, methodCall 0 "POST" URLS.USERINFO_URL (userInfoHeaders st) backend),
   ("get_content", 1, methodCall 1 "GET"
      (pd_server st.region ++ API.CONTENT) (contentHeaders st) backend),
   ("get_account_xp", 0, methodCall 0 "GET"
      (pd_server st.region ++ API.ACCOUNT_XP ++ "/" ++ st.sub) (stdHeaders st) backend),
   ("get_loadout", 0, methodCall 0 "GET"
      (pd_server st.region ++ p "PERSONALIZATION" ++ "/" ++ st.sub ++ "/playerloadout")
      (stdHeaders st) backend),
   ("set_loadout", 0, methodCallNoDecode "PUT"
      (pd_server st.region ++ p "PERSONALIZATION" ++ "/" ++ st.sub ++ "/playerloadout")
      (stdHeaders st)),
   ("get_player_mmr", 1, methodCall 1 "GET"
      (pd_server st.region ++ API.MMR ++ "/" ++ st.sub) (playerMmrHeaders st) backend),
   ("get_match_history", 0, methodCall 0 "GET"
      (pd_server st.region ++ p "HISTORY" ++ "/" ++ st.sub ++ "?startIndex=0&endIndex=20")
      (stdHeaders st) backend),
   ("get_match_details", 0, methodCall 0 "GET"
      (pd_server st.region ++ p "MATCHES" ++ "/" ++ p "match_id") (stdHeaders st) backend),
   ("get_leaderboard", 1, methodCall 1 "GET"
      (get_leaderboard_url st (p "LEADERBOARD") (p "season_id") 0 510 Option.none)
      (leaderboardHeaders st) backend),
   ("get_penalties", 0, methodCall 0 "GET"
      (pd_server st.region ++ p "PENALTIES") (penaltiesHeaders st) backend),
   ("get_config", 0, methodCall 0 "GET"
      (pd_server st.region ++ p "CONFIG" ++ "/" ++ st.region.region) (stdHeaders st) backend),
   ("get_prices", 0, methodCall 0 "GET"
      (pd_server st.region ++ API.PRICES) (stdHeaders st) backend),
   ("get_store", 1, methodCall 1 "GET"
      (pd_server st.region ++ API.STORE ++ "/" ++ st.sub) (storeHeaders st) backend),
   ("get_wallet", 0, methodCall 0 "GET"
      (pd_server st.region ++ API.WALLET ++ "/" ++ st.sub) (stdHeaders st) backend),
   ("get_items", 0, methodCall 0 "GET"
      (pd_server st.region ++ API.OWNED ++ "/" ++ st.sub ++ "/" ++ p "item_type")
      (stdHeaders st) backend),
   ("get_pregame_id", 0, methodCall 0 "GET"
      (glz_server st.region ++ p "PREGAME_PLAYER" ++ "/" ++ st.sub) (stdHeaders st) backend),
   ("get_pregame_match", 0, methodCall 0 "GET"
      (glz_server st.region ++ p "PREGAME_MATCH" ++ "/" ++ p "pregame_match_id")
      (stdHeaders st) backend),
   ("get_pregame_loadout", 0, methodCall 0 "GET"
      (glz_server st.region ++ p "PREGAME_MATCH" ++ "/" ++ p "pregame_match_id" ++ "/loadouts")
      (stdHeaders st) backend),
   ("select_agent", 0, methodCall 0 "POST"
      (glz_server st.region ++ p "MATCHES" ++ "/" ++ p "pregame_match_id"
        ++ "/select/" ++ p "agent_id") (stdHeaders st) backend),
   ("lock_agent", 0, methodCall 0 "POST"
      (glz_server st.region ++ p "MATCHES" ++ "/" ++ p "pregame_match_id"
        ++ "/lock/" ++ p "agent_id") (stdHeaders st) backend),
   ("quit_pregame", 0, methodCall 0 "POST"
      (glz_server st.region ++ p "MATCHES" ++ "/" ++ p "pregame_match_id" ++ "/quit")
      (stdHeaders st) backend),
   ("get_current_game_player", 0, methodCall 0 "GET"
      (glz_server st.region ++ p "CURRENT_GAME_PLAYER" ++ "/" ++ st.sub)
      (stdHeaders st) backend),
   ("get_current_game_match", 0, methodCall 0 "GET"
      (glz_server st.region ++ p "CURRENT_GAME_MATCH" ++ "/" ++ p "current_match_id")
      (stdHeaders st) backend),
   ("get_current_game_loadout", 0, methodCall 0 "GET"
      (glz_server st.region ++ p "CURRENT_GAME_MATCH" ++ "/" ++ p "current_match_id"
        ++ "/loadouts") (stdHeaders st) backend),
   ("get_item_upgrades", 0, methodCall 0 "GET"
      (pd_server st.region ++ p "ITEM_UPGRADES") (stdHeaders st) backend),
   ("get_contracts", 1, methodCall 1 "GET"
      (pd_server st.region ++ p "CONTRACTS" ++ "/" ++ st.sub) (contractsHeaders st) backend)]

/-- A string key has a value in an association list exactly when it occurs
among the mapped-out keys. -/
theorem keys_mem_iff (l : List (String × String)) (k : String) :
    (∃ v, (k, v) ∈ l) ↔ k ∈ l.map Prod.fst := by
  constructor
  · rintro ⟨v, hv⟩
    exact List.mem_map.mpr ⟨(k, v), hv, rfl⟩
  · intro h
    rcases List.mem_map.mp h with ⟨⟨a, b⟩, hab, hk⟩
    exact ⟨b, by cases hk; exact hab⟩

/-- `.json()` never yields the declared `ApiError::Unauthorized`: it either
returns the decoded body or raises the JSON decode error. -/
theorem json_never_unauthorized (r : Response) :
    Response.json r ≠ PyResult.exn PyExn.apiErrorUnauthorized := by
  obtain ⟨s, b⟩ := r
  cases b with
  | none => intro hc; injection hc with h2; exact PyExn.noConfusion h2
  | some v => intro hc; exact PyResult.noConfusion hc

/-- C1 counterexample: against a backend answering 401 first and 200 second,
the claim demands exactly one token refresh; `get_content` performs zero
refreshes, and against a backend answering 401 on every request it still
performs zero refreshes and never surfaces `ApiError::Unauthorized` (it
decodes the second 401 body like any other). -/
theorem C1_counterexample :
    (backend401then200 0).status = 401 ∧
      refreshCount (get_content exState API.CONTENT backend401then200).effects = 0 ∧
      ¬ refreshCount (get_content exState API.CONTENT backend401then200).effects = 1 ∧
      refreshCount (get_content exState API.CONTENT backend401always).effects = 0 ∧
      (get_content exState API.CONTENT backend401always).result
        ≠ PyResult.exn PyExn.apiErrorUnauthorized := by
  refine ⟨rfl, rfl, by decide, rfl, fun hc => ?_⟩
  injection hc

/-- C1 (amended): a 401/403-class response triggers no token refresh and no
retry: every endpoint method of the client issues its own endpoint request
exactly once per call, preceded only by the version-metadata GETs its
`client_version` header reads perform (one per read, counted per method in
`endpointCalls`), it JSON-decodes the single response it receives regardless
of status, and it never produces `ApiError::Unauthorized`. -/
theorem C1_no_refresh_no_retry (st : ClientState) (p : String → String)
    (backend : Nat → Response) (e : String × Nat × CallTrace)
    (he : e ∈ endpointCalls st p backend) :
    refreshCount e.2.2.effects = 0 ∧
      requestCount e.2.2.effects = e.2.1 + 1 ∧
      e.2.2.result ≠ PyResult.exn PyExn.apiErrorUnauthorized := by
  fin_cases he <;>
    first
      | exact ⟨rfl, rfl, json_never_unauthorized (backend 0)⟩
      | exact ⟨rfl, rfl, fun hc => PyResult.noConfusion hc⟩

theorem C1_no_refresh_no_retry_witness :
    refreshCount (methodCall 1 "GET" (pd_server exState.region ++ API.CONTENT)
        (contentHeaders exState) backend401then200).effects = 0 ∧
      requestCount (methodCall 1 "GET" (pd_server exState.region ++ API.CONTENT)
        (contentHeaders exState) backend401then200).effects = 1 + 1 ∧
      (methodCall 1 "GET" (pd_server exState.region ++ API.CONTENT)
          (contentHeaders exState) backend401then200).result
        ≠ PyResult.exn PyExn.apiErrorUnauthorized :=
  C1_no_refresh_no_retry exState (fun _ => "ARG") backend401then200
    ("get_content", 1, methodCall 1 "GET" (pd_server exState.region ++ API.CONTENT)
      (contentHeaders exState) backend401then200)
    (List.Mem.tail _ (List.Mem.head _))

/-- C3 counterexample: on a geolocation response whose live affinity code
"xyz" has no entry in the region table, `get_region` raises the undeclared
exception `KeyError("xyz")`, not `AuthError::UnknownRegion`. -/
theorem C3_counterexample :
    get_region exRegions (geoResponse "xyz") = .exn (.keyError "xyz") ∧
      get_region exRegions (geoResponse "xyz") ≠ .exn .authErrorUnknownRegion := by
  refine ⟨rfl, fun h => ?_⟩
  have h2 : (PyResult.exn (PyExn.keyError "xyz") : PyResult Region)
      = PyResult.exn PyExn.authErrorUnknownRegion :=
    Eq.trans (Eq.symm (rfl : get_region exRegions (geoResponse "xyz")
      = PyResult.exn (PyExn.keyError "xyz"))) h
  exact absurd h2 (by decide)

/-- C3 (amended): when the live affinity code has no entry in the region
table, region resolution raises an uncaught `KeyError` carrying the code
(an undeclared exception, not `AuthError::UnknownRegion`); a table hit
returns the mapped region value. -/
theorem C3_region_lookup (regions : List (String × Region)) (code : String) :
    (List.lookup code regions = Option.none →
        get_region regions (geoResponse code) = .exn (.keyError code)) ∧
      ∀ r : Region, List.lookup code regions = some r →
        get_region regions (geoResponse code) = .ok r := by
  constructor
  · intro h
    simp [get_region, geoResponse, Response.json, pySubscript, h]
  · intro r h
    simp [get_region, geoResponse, Response.json, pySubscript, h]

theorem C3_region_lookup_witness :
    get_region exRegions (geoResponse "xyz") = .exn (.keyError "xyz") ∧
      get_region exRegions (geoResponse "na1") = .ok exRegionNa1 :=
  ⟨(C3_region_lookup exRegions "xyz").1 (by decide),
   (C3_region_lookup exRegions "na1").2 exRegionNa1 (by decide)⟩

/-- C4 counterexample: on a 200 response whose body is not valid JSON,
`get_content` lets the `json.JSONDecodeError` propagate; it does not return
a declared `ApiError::MalformedResponse`. -/
theorem C4_counterexample :
    (get_content exState API.CONTENT fun _ => malformedResponse200).result
        = .exn .jsonDecodeError ∧
      (get_content exState API.CONTENT fun _ => malformedResponse200).result
        ≠ .exn .apiErrorMalformedResponse := by
  refine ⟨rfl, fun h => ?_⟩
  have h2 : (PyResult.exn PyExn.jsonDecodeError : PyResult PyVal)
      = PyResult.exn PyExn.apiErrorMalformedResponse :=
    Eq.trans (Eq.symm (rfl : (get_content exState API.CONTENT
      fun _ => malformedResponse200).result = PyResult.exn PyExn.jsonDecodeError)) h
  injection h2 with h3
  exact absurd h3 (by decide)

/-- C4 (amended): a response whose body fails JSON decoding makes the JSON
decode exception propagate uncaught out of the endpoint method, whatever the
HTTP status (2xx included); no `ApiError::MalformedResponse` value exists in
the code. -/
theorem C4_malformed_json (st : ClientState) (path : String)
    (backend : Nat → Response) (h : (backend 0).jsonBody = Option.none) :
    (get_content st path backend).result = .exn .jsonDecodeError ∧
      (get_user_info st backend).result = .exn .jsonDecodeError := by
  constructor <;> simp [get_content, get_user_info, methodCall, Response.json, h]

theorem C4_malformed_json_witness :
    (get_content exState API.CONTENT fun _ => malformedResponse200).result
        = .exn .jsonDecodeError ∧
      (get_user_info exState fun _ => malformedResponse200).result
        = .exn .jsonDecodeError :=
  C4_malformed_json exState API.CONTENT (fun _ => malformedResponse200) rfl

/-- C2: for a region value whose region code and shard code are both "na1",
the endpoint router yields exactly the account base
`https://pd.na1.a.pvp.net` and the live base
`https://glz-na1-1.na1.a.pvp.net`. -/
theorem C2_na1_routes (r : Region) (hr : r.region = "na1") (hs : r.shard = "na1") :
    routes r =
      { accountServer := "https://pd.na1.a.pvp.net",
        liveServer := "https://glz-na1-1.na1.a.pvp.net" } := by
  simp [routes, pd_server, glz_server, hr, hs]

theorem C2_na1_routes_witness :
    routes { region := "na1", shard := "na1", xmpp := "na1" } =
      { accountServer := "https://pd.na1.a.pvp.net",
        liveServer := "https://glz-na1-1.na1.a.pvp.net" } :=
  C2_na1_routes { region := "na1", shard := "na1", xmpp := "na1" } rfl rfl

/-- C5: the base URL construction is a pure, deterministic function of the
region and shard codes alone: any two region values that agree on those two
codes route to the same pair of base URLs. -/
theorem C5_routes_deterministic (r1 r2 : Region)
    (hr : r1.region = r2.region) (hs : r1.shard = r2.shard) :
    routes r1 = routes r2 := by
  simp [routes, pd_server, glz_server, hr, hs]

theorem C5_routes_deterministic_witness :
    routes { region := "na1", shard := "na1", xmpp := "na1" } =
      routes { region := "na1", shard := "na1", xmpp := "different-chat-id" } :=
  C5_routes_deterministic _ _ rfl rfl

/-- C7: every evaluation of `client_platform` returns the same value, namely
the base64 encoding of the fixed Windows PC platform JSON object,
independent of the client state. -/
theorem C7_client_platform_constant :
    (∀ s1 s2 : ClientState, client_platform s1 = client_platform s2) ∧
      ∀ s : ClientState, client_platform s =
        "eyJwbGF0Zm9ybVR5cGUiOiAiUEMiLCAicGxhdGZvcm1PUyI6ICJXaW5kb3dzIiwgInBsYXRmb3JtT1NWZXJzaW9uIjogIjEwLjAuMTkwNDIuMS4yNTYuNjRiaXQiLCAicGxhdGZvcm1DaGlwc2V0IjogIlVua25vd24ifQ==" := by
  refine ⟨fun s1 s2 => rfl, fun s => ?_⟩
  set_option maxRecDepth 4000 in rfl

/-- C6: every region-routed endpoint method attaches both an Authorization
header whose value is "Bearer " followed by the current access token and an
X-Riot-Entitlements-JWT header whose value is the current entitlement
token. -/
theorem C6_routed_headers (st : ClientState) (m : String × List (String × String))
    (hm : m ∈ routedMethodHeaders st) :
    ("Authorization", "Bearer " ++ st.access_token) ∈ m.2 ∧
      ("X-Riot-Entitlements-JWT", st.entitlement_token) ∈ m.2 := by
  fin_cases hm <;>
    simp [contentHeaders, stdHeaders, playerMmrHeaders, leaderboardHeaders,
      penaltiesHeaders, storeHeaders, contractsHeaders]

theorem C6_routed_headers_witness :
    ("Authorization", "Bearer " ++ exState.access_token)
        ∈ ("get_content", contentHeaders exState).2 ∧
      ("X-Riot-Entitlements-JWT", exState.entitlement_token)
        ∈ ("get_content", contentHeaders exState).2 :=
  C6_routed_headers exState ("get_content", contentHeaders exState)
    (by simp [routedMethodHeaders])

/-- C8: whenever `username` is falsy (None or the empty string), the URL
`get_leaderboard` issues its request to is the empty string, not the
leaderboard endpoint on the pd server, because the trailing conditional
expression binds below the string concatenation and replaces the entire
URL. -/
theorem C8_leaderboard_url_empty (st : ClientState) (path season_id : String)
    (start amount : Int) (username : Option String)
    (h : strOptTruthy username = false) :
    get_leaderboard_url st path season_id start amount username = "" := by
  simp [get_leaderboard_url, h]

theorem C8_leaderboard_url_empty_witness :
    get_leaderboard_url exState "/mmr/v1/leaderboards" "season-1" 0 510
        Option.none = "" :=
  C8_leaderboard_url_empty exState "/mmr/v1/leaderboards" "season-1" 0 510
    Option.none rfl

/-- C9: with `pregame_match_id = None`, `select_agent`, `lock_agent` and
`quit_pregame` interpolate the entire dict returned by `get_pregame_id`
into the URL, while `get_pregame_match` and `get_pregame_loadout` first
extract its "MatchID" field; the whole dict is never equal to that field. -/
theorem C9_pregame_match_id (entries : List (String × PyVal)) (s : String)
    (h : List.lookup "MatchID" entries = some (PyVal.str s)) :
    select_agent_match_id (PyVal.dict entries) Option.none = PyVal.dict entries ∧
      lock_agent_match_id (PyVal.dict entries) Option.none = PyVal.dict entries ∧
      quit_pregame_match_id (PyVal.dict entries) Option.none = PyVal.dict entries ∧
      get_pregame_match_match_id (PyVal.dict entries) Option.none
        = PyResult.ok (PyVal.str s) ∧
      get_pregame_loadout_match_id (PyVal.dict entries) Option.none
        = PyResult.ok (PyVal.str s) ∧
      PyVal.dict entries ≠ PyVal.str s := by
  refine ⟨rfl, rfl, rfl, ?_, ?_, fun hc => PyVal.noConfusion hc⟩
  · simp [get_pregame_match_match_id, pySubscript, h]
  · simp [get_pregame_loadout_match_id, pySubscript, h]

theorem C9_pregame_match_id_witness :
    List.lookup "MatchID" [("MatchID", PyVal.str "match-1")]
        = some (PyVal.str "match-1") ∧
      (select_agent_match_id (PyVal.dict [("MatchID", PyVal.str "match-1")])
          Option.none = PyVal.dict [("MatchID", PyVal.str "match-1")] ∧
        lock_agent_match_id (PyVal.dict [("MatchID", PyVal.str "match-1")])
          Option.none = PyVal.dict [("MatchID", PyVal.str "match-1")] ∧
        quit_pregame_match_id (PyVal.dict [("MatchID", PyVal.str "match-1")])
          Option.none = PyVal.dict [("MatchID", PyVal.str "match-1")] ∧
        get_pregame_match_match_id (PyVal.dict [("MatchID", PyVal.str "match-1")])
          Option.none = PyResult.ok (PyVal.str "match-1") ∧
        get_pregame_loadout_match_id (PyVal.dict [("MatchID", PyVal.str "match-1")])
          Option.none = PyResult.ok (PyVal.str "match-1") ∧
        PyVal.dict [("MatchID", PyVal.str "match-1")] ≠ PyVal.str "match-1") :=
  ⟨rfl, C9_pregame_match_id [("MatchID", PyVal.str "match-1")] "match-1" rfl⟩

/-- C10: the static chat routing tables are key-consistent: `xmpp_regions`
and `xmpp_servers` have exactly the same keys, so every code resolvable to
a chat region is resolvable to a chat server and vice versa. -/
theorem C10_xmpp_keys_consistent :
    xmpp_regions.map Prod.fst = xmpp_servers.map Prod.fst ∧
      ∀ k : String, (∃ v, (k, v) ∈ xmpp_regions) ↔ ∃ v, (k, v) ∈ xmpp_servers := by
  have hmap : xmpp_regions.map Prod.fst = xmpp_servers.map Prod.fst := rfl
  refine ⟨hmap, fun k => ?_⟩
  rw [keys_mem_iff, keys_mem_iff, hmap]

end ValorantPy
